import Mathlib

/-!
Shallow embedding of `src/mt5_bridge.py` (class `MT5Bridge`), the
subscription-fanout and command-relay engine of the orderflow-architect
repository.

Modelling conventions:
* Python `set` objects (`connected_clients`, `subscribed_symbols`) are
  modelled as duplicate-free lists with membership-based insert/remove
  (`pyInsert`, `pyRemove`); only membership matters for the claims.
* Client websocket handles are modelled as natural numbers.
* Python floats are modelled as rationals (`ℚ`); none of the claims
  depend on floating-point rounding.
* The external MetaTrader5 module is modelled as a `Venue` capability
  record: `symbol_info`, `order_send`, `positions_get`, `account_info`,
  each possibly failing (`Option` / empty list).  A `none` from
  `order_send` models the Python call raising or returning an object
  without a `retcode` attribute; both land in the `except` branch.
* Wall-clock values (the `time` field of a symbol-info record) are
  supplied by the venue at lookup time; the ISO timestamp of a
  market-data record is omitted (pure wall clock, never inspected).
* Dictionaries returned to clients are modelled as structures whose
  `Option` fields are `none` exactly when the Python dict omits the key.
-/

/-- Python `set.add`: insert an element if it is not already present. -/
def pyInsert {α : Type} [DecidableEq α] (a : α) (l : List α) : List α :=
  if a ∈ l then l else a :: l

/-- Python `set.remove` / `set.discard` on a duplicate-free list:
drop every occurrence of the element. -/
def pyRemove {α : Type} [DecidableEq α] (a : α) (l : List α) : List α :=
  l.filter (fun x => x ≠ a)

/-- MetaTrader5 constant `ORDER_TYPE_BUY`. -/
def ORDER_TYPE_BUY : ℕ := 0
/-- MetaTrader5 constant `ORDER_TYPE_SELL`. -/
def ORDER_TYPE_SELL : ℕ := 1
/-- MetaTrader5 constant `TRADE_ACTION_DEAL`. -/
def TRADE_ACTION_DEAL : ℕ := 1
/-- MetaTrader5 constant `ORDER_TIME_GTC`. -/
def ORDER_TIME_GTC : ℕ := 0
/-- MetaTrader5 constant `ORDER_FILLING_IOC`. -/
def ORDER_FILLING_IOC : ℕ := 1
/-- MetaTrader5 constant `TRADE_RETCODE_DONE`, the venue's "done" code. -/
def TRADE_RETCODE_DONE : ℤ := 10009

/-- The dict built by `MT5Bridge.get_symbol_info` (lines 86-96). -/
structure SymbolInfo where
  symbol : String
  bid : ℚ
  ask : ℚ
  spread : ℤ
  digits : ℕ
  point : ℚ
  volume_min : ℚ
  volume_max : ℚ
  time : ℕ
deriving DecidableEq, Repr

/-- The order-request dict passed to `mt5.order_send` (lines 237-248 for
trade, 291-300 for close).  `price`, `sl`, `tp` are `none` when the dict
omits the key (the close request carries no price/sl/tp); `position` is
set only by the close path. -/
structure OrderRequest where
  action : ℕ
  symbol : Option String
  volume : ℚ
  type : ℕ
  price : Option ℚ
  sl : Option ℚ
  tp : Option ℚ
  comment : String
  position : Option ℕ
  type_time : ℕ
  type_filling : ℕ
deriving DecidableEq, Repr

/-- The fields of the result object returned by `mt5.order_send` that the
bridge reads: `retcode`, `order`, `price`, `comment`. -/
structure OrderSendResult where
  retcode : ℤ
  order : ℕ
  price : ℚ
  comment : String
deriving DecidableEq, Repr

/-- The fields of an `mt5.positions_get` entry that `close_position`
reads: `symbol`, `volume`, `type`. -/
structure MtPosition where
  symbol : String
  volume : ℚ
  type : ℕ
deriving DecidableEq, Repr

/-- The dict built by `MT5Bridge.get_account_info` (lines 330-340). -/
structure AccountInfo where
  login : ℕ
  balance : ℚ
  equity : ℚ
  margin : ℚ
  free_margin : ℚ
  margin_level : ℚ
  currency : String
  server : String
  leverage : ℕ
deriving DecidableEq, Repr

/-- The external MetaTrader5 capability as used by the bridge.
`symbol_info s = none` models both `mt5.symbol_info` returning `None`
and the call raising (caught in `get_symbol_info` / `execute_trade`);
`order_send r = none` models an order-send whose result cannot be read
(exception on `result.retcode`); `positions_get t = []` models a ticket
matching no open position (an erroring `positions_get` returns `None`
in Python, which the `if not positions` test treats the same way);
`account_info = none` models an unavailable account. -/
structure Venue where
  symbol_info : String → Option SymbolInfo
  order_send : OrderRequest → Option OrderSendResult
  positions_get : Option ℕ → List MtPosition
  account_info : Option AccountInfo

/-- The parsed JSON payload of a client message: `data.get(...)` for each
key the bridge reads.  A field is `none` when the key is absent. -/
structure MsgData where
  action : Option String
  symbol : Option String
  type : Option String
  volume : Option ℚ
  price : Option ℚ
  sl : Option ℚ
  tp : Option ℚ
  comment : Option String
  ticket : Option ℕ
deriving DecidableEq, Repr

/-- An inbound client frame: either text that fails `json.loads`, or a
parsed object. -/
inductive ClientMsg where
  | invalidJson
  | parsed (d : MsgData)
deriving DecidableEq, Repr

/-- The trade-result dict of `execute_trade` (lines 255-277).  `none`
fields are keys the Python dict omits. -/
structure TradeResult where
  success : Bool
  ticket : Option ℕ
  volume : Option ℚ
  price : Option ℚ
  symbol : Option String
  type : Option String
  error : Option String
  retcode : Option ℤ
deriving DecidableEq, Repr

/-- The close-result dict of `close_position` (lines 284-321). -/
structure CloseResult where
  success : Bool
  ticket : Option ℕ
  close_price : Option ℚ
  error : Option String
  retcode : Option ℤ
deriving DecidableEq, Repr

/-- Placeholder for the interpreter-dependent `str(e)` text of the broad
`except` branches; no claim inspects the exact text. -/
def pyExceptionText : String := "exception"

/-- The mutable bridge state the claims are about: `connected_clients`
and `subscribed_symbols` of `MT5Bridge.__init__` (lines 37-39). -/
structure BridgeState where
  connected_clients : List ℕ
  subscribed_symbols : List String
deriving DecidableEq, Repr

/-- The initial state: both sets empty. -/
def initState : BridgeState := ⟨[], []⟩

/-- `MT5Bridge.get_symbol_info` (lines 79-99): a venue lookup whose
result dict carries the requested symbol; `None` on venue failure. -/
def get_symbol_info (venue : Venue) (s : String) : Option SymbolInfo :=
  (venue.symbol_info s).map (fun q => { q with symbol := s })

/-- `MT5Bridge.get_current_prices` (lines 101-111): loop over the
symbols, keep the successful lookups, skip the failures. -/
def get_current_prices (venue : Venue) : List String → List SymbolInfo
  | [] => []
  | s :: rest =>
    match get_symbol_info venue s with
    | some q => q :: get_current_prices venue rest
    | none => get_current_prices venue rest

/-- `float(trade_data.get('volume', 0.01))` (line 222): default only
when the key is absent. -/
def resolvedVolume (d : MsgData) : ℚ := d.volume.getD (1 / 100)

/-- Line 229: `ORDER_TYPE_BUY if trade_type == 'buy' else ORDER_TYPE_SELL`. -/
def resolvedType (d : MsgData) : ℕ :=
  if d.type = some "buy" then ORDER_TYPE_BUY else ORDER_TYPE_SELL

/-- Lines 231-234: when the supplied price is falsy (`None` or `0`),
fetch the quote and use ask for buy, bid otherwise; `none` models the
exception raised when the symbol is absent or the quote lookup fails
(`symbol_info.ask` on `None`). -/
def resolvePrice (venue : Venue) (d : MsgData) : Option ℚ :=
  let lookup : Option ℚ :=
    match d.symbol with
    | none => none
    | some s => (venue.symbol_info s).map
        (fun q => if d.type = some "buy" then q.ask else q.bid)
  match d.price with
  | some p => if p = 0 then lookup else some p
  | none => lookup

/-- The request dict of lines 237-248. -/
def buildRequest (d : MsgData) (p : ℚ) : OrderRequest :=
  { action := TRADE_ACTION_DEAL
    symbol := d.symbol
    volume := resolvedVolume d
    type := resolvedType d
    price := some p
    sl := some (d.sl.getD 0)
    tp := some (d.tp.getD 0)
    comment := d.comment.getD "ARIA V3 Elite Trade"
    position := none
    type_time := ORDER_TIME_GTC
    type_filling := ORDER_FILLING_IOC }

/-- The `{'success': False, 'error': str(e)}` dict of the exception
branch (lines 274-277). -/
def tradeExceptionResult : TradeResult :=
  { success := false, ticket := none, volume := none, price := none,
    symbol := none, type := none, error := some pyExceptionText,
    retcode := none }

/-- `MT5Bridge.execute_trade` (lines 217-277).  Returns the result dict
together with the list of order requests actually submitted to the
venue (so single-shot submission is a provable statement). -/
def execute_trade (venue : Venue) (d : MsgData) :
    TradeResult × List OrderRequest :=
  match resolvePrice venue d with
  | none => (tradeExceptionResult, [])
  | some p =>
    let req := buildRequest d p
    match venue.order_send req with
    | none => (tradeExceptionResult, [req])
    | some r =>
      if r.retcode ≠ TRADE_RETCODE_DONE then
        ({ success := false, ticket := none, volume := none, price := none,
           symbol := none, type := none,
           error := some ("Trade failed: " ++ r.comment),
           retcode := some r.retcode }, [req])
      else
        ({ success := true, ticket := some r.order,
           volume := some (resolvedVolume d), price := some r.price,
           symbol := d.symbol, type := d.type,
           error := none, retcode := none }, [req])

/-- `MT5Bridge.close_position` (lines 279-321), with the list of order
requests submitted to the venue. -/
def close_position (venue : Venue) (ticket : Option ℕ) :
    CloseResult × List OrderRequest :=
  match venue.positions_get ticket with
  | [] =>
    ({ success := false, ticket := none, close_price := none,
       error := some "Position not found", retcode := none }, [])
  | pos :: _ =>
    let close_type :=
      if pos.type = ORDER_TYPE_BUY then ORDER_TYPE_SELL else ORDER_TYPE_BUY
    let req : OrderRequest :=
      { action := TRADE_ACTION_DEAL, symbol := some pos.symbol,
        volume := pos.volume, type := close_type, price := none,
        sl := none, tp := none, comment := "ARIA V3 Elite Close",
        position := ticket, type_time := ORDER_TIME_GTC,
        type_filling := ORDER_FILLING_IOC }
    match venue.order_send req with
    | none =>
      ({ success := false, ticket := none, close_price := none,
         error := some pyExceptionText, retcode := none }, [req])
    | some r =>
      if r.retcode ≠ TRADE_RETCODE_DONE then
        ({ success := false, ticket := none, close_price := none,
           error := some ("Close failed: " ++ r.comment),
           retcode := some r.retcode }, [req])
      else
        ({ success := true, ticket := ticket, close_price := some r.price,
           error := none, retcode := none }, [req])

/-- A server-to-client frame sent in reply to a command. -/
inductive Response where
  | price (q : SymbolInfo)
  | trade_result (r : TradeResult)
  | close_result (r : CloseResult)
  | account (a : Option AccountInfo)
deriving DecidableEq, Repr

/-- `MT5Bridge.handle_client_message` (lines 164-215).  Returns the new
state, the list of responses sent (attempted) back to the originating
client, and whether the handler error-logged a dropped frame (the
`json.JSONDecodeError` branch, line 213).  The `if symbol:` test of the
subscribe branch is Python truthiness: `None` and the empty string are
both falsy. -/
def handle_client_message (venue : Venue) (st : BridgeState) :
    ClientMsg → BridgeState × List Response × Bool
  | ClientMsg.invalidJson => (st, [], true)
  | ClientMsg.parsed d =>
    if d.action = some "subscribe" then
      match d.symbol with
      | some s =>
        if s ≠ "" then
          let st' := { st with
            subscribed_symbols := pyInsert s st.subscribed_symbols }
          match get_symbol_info venue s with
          | some q => (st', [Response.price q], false)
          | none => (st', [], false)
        else (st, [], false)
      | none => (st, [], false)
    else if d.action = some "unsubscribe" then
      match d.symbol with
      | some s =>
        if s ∈ st.subscribed_symbols then
          ({ st with subscribed_symbols := pyRemove s st.subscribed_symbols },
           [], false)
        else (st, [], false)
      | none => (st, [], false)
    else if d.action = some "trade" then
      (st, [Response.trade_result (execute_trade venue d).1], false)
    else if d.action = some "close" then
      (st, [Response.close_result (close_position venue d.ticket).1], false)
    else if d.action = some "account_info" then
      (st, [Response.account venue.account_info], false)
    else (st, [], false)

/-- An externally visible event of the bridge: a client connecting
(`handle_client`, line 348), disconnecting (the `finally` discard,
line 369), or delivering one inbound frame (line 362). -/
inductive BridgeEvent where
  | connect (c : ℕ)
  | disconnect (c : ℕ)
  | message (c : ℕ) (m : ClientMsg)
deriving DecidableEq, Repr

/-- Effect of one event on the bridge state. -/
def stepEvent (venue : Venue) (st : BridgeState) : BridgeEvent → BridgeState
  | BridgeEvent.connect c =>
    { st with connected_clients := pyInsert c st.connected_clients }
  | BridgeEvent.disconnect c =>
    { st with connected_clients := pyRemove c st.connected_clients }
  | BridgeEvent.message _ m => (handle_client_message venue st m).1

/-- Run a sequence of events from a state. -/
def runEvents (venue : Venue) (st : BridgeState) :
    List BridgeEvent → BridgeState
  | [] => st
  | e :: rest => runEvents venue (stepEvent venue st e) rest

/-- The `market_data` record built per price in `price_feed_worker`
(lines 124-139); the wall-clock ISO timestamp is omitted. -/
structure MarketData where
  symbol : String
  open_ : ℚ
  high : ℚ
  low : ℚ
  close : ℚ
  volume : ℕ
  bid : ℚ
  ask : ℚ
  bidSize : ℕ
  askSize : ℕ
  change24h : ℚ
  changePercent24h : ℚ
deriving DecidableEq, Repr

/-- Lines 124-139: merge a quote into the bar-like display shape. -/
def formatMarketData (q : SymbolInfo) : MarketData :=
  { symbol := q.symbol, open_ := q.bid, high := q.ask, low := q.bid,
    close := q.bid, volume := 1000, bid := q.bid, ask := q.ask,
    bidSize := 1000, askSize := 1000, change24h := 0,
    changePercent24h := 0 }

/-- The inner send loop of one message (lines 145-153): iterate over a
snapshot of the clients, collect delivered and failed clients.
`ok c = true` means `client.send` succeeds for this message; `false`
models `ConnectionClosed` or any other send exception. -/
def sendLoop : List ℕ → (ℕ → Bool) → List ℕ × List ℕ
  | [], _ => ([], [])
  | c :: rest, ok =>
    if ok c then (c :: (sendLoop rest ok).1, (sendLoop rest ok).2)
    else ((sendLoop rest ok).1, c :: (sendLoop rest ok).2)

/-- The per-tick message loop (lines 122-156): for each market-data
message, fan out to the current clients, then drop the clients whose
send failed (`self.connected_clients -= disconnected_clients`).
Returns the surviving clients and the delivered `(client, message)`
pairs.  `sendOk c sym` is the outcome of sending this tick's message
for symbol `sym` to client `c`. -/
def runMessages (sendOk : ℕ → String → Bool) :
    List ℕ → List MarketData → List ℕ × List (ℕ × MarketData)
  | clients, [] => (clients, [])
  | clients, m :: rest =>
    let res := sendLoop clients (fun c => sendOk c m.symbol)
    let clients' := clients.filter (fun c => c ∉ res.2)
    ((runMessages sendOk clients' rest).1,
     res.1.map (fun c => (c, m)) ++ (runMessages sendOk clients' rest).2)

/-- The market-data messages produced by one pass of lines 119-139. -/
def tickPrices (venue : Venue) (st : BridgeState) : List MarketData :=
  (get_current_prices venue st.subscribed_symbols).map formatMarketData

/-- One iteration of the `price_feed_worker` loop body (lines 117-156):
when both sets are non-empty (Python truthiness of the `and` at line
119), fetch the prices and fan each message out to all connected
clients.  Returns the new state and the delivered pairs. -/
def broadcastTick (venue : Venue) (st : BridgeState)
    (sendOk : ℕ → String → Bool) : BridgeState × List (ℕ × MarketData) :=
  if st.subscribed_symbols ≠ [] ∧ st.connected_clients ≠ [] then
    ({ st with connected_clients :=
        (runMessages sendOk st.connected_clients (tickPrices venue st)).1 },
     (runMessages sendOk st.connected_clients (tickPrices venue st)).2)
  else (st, [])

/-- The messages a tick produces (empty when the line-119 guard fails). -/
def tickMessages (venue : Venue) (st : BridgeState) : List MarketData :=
  if st.subscribed_symbols ≠ [] ∧ st.connected_clients ≠ [] then
    tickPrices venue st
  else []

/-- Modelled from the spec: the per-client `ClientRegistry` of spec
section 4.1 (absent from the code, which keeps one global symbol set).
An association list from client handle to its subscription set:
`register` adds a handle with an empty set, `deregister` removes the
handle with its subscriptions, `subscribe`/`unsubscribe` edit only the
issuing client's set. -/
def specStep (r : List (ℕ × List String)) : BridgeEvent → List (ℕ × List String)
  | BridgeEvent.connect c =>
    if c ∈ r.map Prod.fst then r else (c, []) :: r
  | BridgeEvent.disconnect c => r.filter (fun e => e.1 ≠ c)
  | BridgeEvent.message c (ClientMsg.parsed d) =>
    if d.action = some "subscribe" then
      match d.symbol with
      | some s => r.map (fun e => if e.1 = c then (e.1, pyInsert s e.2) else e)
      | none => r
    else if d.action = some "unsubscribe" then
      match d.symbol with
      | some s => r.map (fun e => if e.1 = c then (e.1, pyRemove s e.2) else e)
      | none => r
    else r
  | BridgeEvent.message _ ClientMsg.invalidJson => r

/-- Modelled from the spec: run the spec-side registry over a trace. -/
def specRun (r : List (ℕ × List String)) : List BridgeEvent → List (ℕ × List String)
  | [] => r
  | e :: rest => specRun (specStep r e) rest

/-- Modelled from the spec: the subscription set of one connected client
after a trace starting from the empty registry. -/
def specSubsOf (evs : List BridgeEvent) (c : ℕ) : List String :=
  match (specRun [] evs).filter (fun e => e.1 = c) with
  | [] => []
  | e :: _ => e.2

/-- Modelled from the spec: `activeSymbols()`, the union over all
currently connected clients of their subscription sets. -/
def specActiveSymbols (evs : List BridgeEvent) : List String :=
  (specRun [] evs).foldr (fun e acc => e.2 ++ acc) []

/-- Whether one event inserts (`some true`) or removes (`some false`)
the symbol `s` from the global `subscribed_symbols` set, or leaves it
untouched (`none`). -/
def touchOf (s : String) : BridgeEvent → Option Bool
  | BridgeEvent.message _ (ClientMsg.parsed d) =>
    if d.action = some "subscribe" then
      match d.symbol with
      | some t => if t = s ∧ s ≠ "" then some true else none
      | none => none
    else if d.action = some "unsubscribe" then
      match d.symbol with
      | some t => if t = s then some false else none
      | none => none
    else none
  | _ => none

/-- The last subscribe/unsubscribe touching `s` in a trace, if any. -/
def lastTouch (s : String) : List BridgeEvent → Option Bool
  | [] => none
  | e :: rest =>
    match lastTouch s rest with
    | some b => some b
    | none => touchOf s e

/-! Concrete inputs used by the counterexamples and witnesses below. -/

/-- A message payload with every key absent. -/
def emptyMsg : MsgData :=
  { action := none, symbol := none, type := none, volume := none,
    price := none, sl := none, tp := none, comment := none, ticket := none }

/-- A `subscribe` command for one symbol. -/
def subMsg (s : String) : MsgData :=
  { emptyMsg with action := some "subscribe", symbol := some s }

/-- An `unsubscribe` command for one symbol. -/
def unsubMsg (s : String) : MsgData :=
  { emptyMsg with action := some "unsubscribe", symbol := some s }

/-- A concrete quote for a symbol. -/
def demoQuote (s : String) : SymbolInfo :=
  { symbol := s, bid := 1, ask := 2, spread := 1, digits := 5, point := 1,
    volume_min := 1, volume_max := 100, time := 0 }

/-- A venue that quotes every symbol, rejects reading any order result,
and has no open positions. -/
def demoVenue : Venue :=
  { symbol_info := fun s => some (demoQuote s)
    order_send := fun _ => none
    positions_get := fun _ => []
    account_info := none }

/-- A venue that accepts every order with the "done" retcode. -/
def demoVenueAccept : Venue :=
  { demoVenue with
    order_send := fun _ =>
      some { retcode := 10009, order := 7, price := 1, comment := "filled" } }

/-- A venue that quotes only "EURUSD"; every other lookup fails. -/
def partialVenue : Venue :=
  { demoVenue with
    symbol_info := fun s =>
      if s = "EURUSD" then some (demoQuote "EURUSD") else none }

/-- Two clients both subscribe "EURUSD"; then client 0 unsubscribes it
while client 1 stays connected and subscribed. -/
def traceSharedUnsub : List BridgeEvent :=
  [BridgeEvent.connect 0, BridgeEvent.connect 1,
   BridgeEvent.message 0 (ClientMsg.parsed (subMsg "EURUSD")),
   BridgeEvent.message 1 (ClientMsg.parsed (subMsg "EURUSD")),
   BridgeEvent.message 0 (ClientMsg.parsed (unsubMsg "EURUSD"))]

/-- Client 0 subscribes only "EURUSD", client 1 only "GBPUSD". -/
def traceDisjointSubs : List BridgeEvent :=
  [BridgeEvent.connect 0, BridgeEvent.connect 1,
   BridgeEvent.message 0 (ClientMsg.parsed (subMsg "EURUSD")),
   BridgeEvent.message 1 (ClientMsg.parsed (subMsg "GBPUSD"))]

/-- The bridge state reached by `traceDisjointSubs`. -/
def stDisjoint : BridgeState := runEvents demoVenue initState traceDisjointSubs

/-- Client 0 subscribes "EURUSD" and then disconnects, leaving no
clients at all. -/
def traceSubThenLeave : List BridgeEvent :=
  [BridgeEvent.connect 0,
   BridgeEvent.message 0 (ClientMsg.parsed (subMsg "EURUSD")),
   BridgeEvent.disconnect 0]

/-- A trade command carrying an explicit zero volume. -/
def tdZeroVol : MsgData :=
  { emptyMsg with
    action := some "trade", symbol := some "EURUSD", type := some "buy",
    volume := some 0, price := some 1 }

/-- A trade command missing its required symbol (and every other key). -/
def tdNoSym : MsgData := { emptyMsg with action := some "trade" }

/-- A well-formed buy command with an explicit price. -/
def tdBuy : MsgData :=
  { emptyMsg with
    action := some "trade", symbol := some "EURUSD", type := some "buy",
    volume := some 1, price := some 1 }

/-- A trade command whose side is the misspelled string "BUY" and which
carries no price. -/
def tdMisspelled : MsgData :=
  { emptyMsg with
    action := some "trade", symbol := some "EURUSD", type := some "BUY",
    volume := some 1 }

/-- Two connected clients, one subscribed symbol. -/
def stTwoClients : BridgeState :=
  { connected_clients := [0, 1], subscribed_symbols := ["EURUSD"] }

/-- One connected client; "GBPUSD" (quote fails under `partialVenue`)
is polled before "EURUSD". -/
def stMixedSymbols : BridgeState :=
  { connected_clients := [0], subscribed_symbols := ["GBPUSD", "EURUSD"] }

/-- A send outcome where every send to client 1 fails and every other
send succeeds. -/
def demoSendFail : ℕ → String → Bool := fun c _ => c != 1

/-- A frame whose action matches no recognized command. -/
def unknownActionMsg : MsgData := { emptyMsg with action := some "noop" }

/-- A close command missing its required ticket. -/
def closeNoTicket : MsgData := { emptyMsg with action := some "close" }

/-! Helper lemmas about the set primitives and the loops. -/

theorem mem_pyInsert {α : Type} [DecidableEq α] {a b : α} {l : List α} :
    a ∈ pyInsert b l ↔ a = b ∨ a ∈ l := by
  unfold pyInsert
  split
  · next h =>
    constructor
    · exact fun ha => Or.inr ha
    · rintro (rfl | ha)
      · exact h
      · exact ha
  · simp [List.mem_cons]

theorem mem_pyRemove {α : Type} [DecidableEq α] {a b : α} {l : List α} :
    a ∈ pyRemove b l ↔ a ∈ l ∧ a ≠ b := by
  simp [pyRemove, List.mem_filter]

theorem symbol_get_symbol_info {venue : Venue} {s : String} {q : SymbolInfo}
    (h : get_symbol_info venue s = some q) : q.symbol = s := by
  unfold get_symbol_info at h
  cases hv : venue.symbol_info s with
  | none => rw [hv] at h; simp [Option.map] at h
  | some r => rw [hv] at h; simp [Option.map] at h; rw [← h]

theorem mem_get_current_prices_of {venue : Venue} {syms : List String}
    {s : String} {q : SymbolInfo} (hs : s ∈ syms)
    (hq : get_symbol_info venue s = some q) :
    q ∈ get_current_prices venue syms := by
  induction syms with
  | nil => cases hs
  | cons t rest ih =>
    rcases List.mem_cons.mp hs with rfl | hmem
    · rw [get_current_prices, hq]; exact List.mem_cons_self _ _
    · rw [get_current_prices]
      cases get_symbol_info venue t with
      | none => exact ih hmem
      | some r => exact List.mem_cons_of_mem _ (ih hmem)

theorem of_mem_get_current_prices {venue : Venue} {syms : List String}
    {q : SymbolInfo} (h : q ∈ get_current_prices venue syms) :
    ∃ s ∈ syms, get_symbol_info venue s = some q := by
  induction syms with
  | nil => rw [get_current_prices] at h; cases h
  | cons t rest ih =>
    rw [get_current_prices] at h
    cases hgi : get_symbol_info venue t with
    | none =>
      rw [hgi] at h
      obtain ⟨s, hs, hq⟩ := ih h
      exact ⟨s, List.mem_cons_of_mem _ hs, hq⟩
    | some r =>
      rw [hgi] at h
      rcases List.mem_cons.mp h with rfl | hmem
      · exact ⟨t, List.mem_cons_self _ _, hgi⟩
      · obtain ⟨s, hs, hq⟩ := ih hmem
        exact ⟨s, List.mem_cons_of_mem _ hs, hq⟩

theorem sendLoop_eq (clients : List ℕ) (ok : ℕ → Bool) :
    sendLoop clients ok =
      (clients.filter ok, clients.filter (fun c => !(ok c))) := by
  induction clients with
  | nil => rfl
  | cons c rest ih =>
    rw [sendLoop, ih]
    cases h : ok c <;> simp [List.filter, h]

theorem runMessages_fst_subset (sendOk : ℕ → String → Bool)
    (msgs : List MarketData) (clients : List ℕ) {c : ℕ}
    (h : c ∈ (runMessages sendOk clients msgs).1) : c ∈ clients := by
  induction msgs generalizing clients with
  | nil => rw [runMessages] at h; exact h
  | cons m rest ih =>
    rw [runMessages] at h
    have := ih _ h
    exact (List.mem_filter.mp this).1

theorem runMessages_delivers (sendOk : ℕ → String → Bool)
    (msgs : List MarketData) (clients : List ℕ) {c : ℕ}
    (hc : c ∈ clients) (hok : ∀ s, sendOk c s = true) :
    ∀ m ∈ msgs, (c, m) ∈ (runMessages sendOk clients msgs).2 := by
  induction msgs generalizing clients with
  | nil => intro m hm; cases hm
  | cons m0 rest ih =>
    intro m hm
    rw [runMessages]
    rcases List.mem_cons.mp hm with rfl | hmem
    · apply List.mem_append_left
      refine List.mem_map.mpr ⟨c, ?_, rfl⟩
      rw [sendLoop_eq]
      exact List.mem_filter.mpr ⟨hc, hok m.symbol⟩
    · apply List.mem_append_right
      apply ih _ _ m hmem
      refine List.mem_filter.mpr ⟨hc, ?_⟩
      rw [sendLoop_eq]
      simp only [List.mem_filter, decide_eq_true_eq]
      simp [hc, hok m0.symbol]

theorem runMessages_drops (sendOk : ℕ → String → Bool)
    (msgs : List MarketData) (clients : List ℕ) {C : ℕ}
    (hC : ∀ s, sendOk C s = false) (hmsgs : msgs ≠ []) :
    C ∉ (runMessages sendOk clients msgs).1 := by
  cases msgs with
  | nil => exact absurd rfl hmsgs
  | cons m rest =>
    intro hmem
    rw [runMessages] at hmem
    have hin := runMessages_fst_subset _ _ _ hmem
    have h1 := (List.mem_filter.mp hin).1
    have h2 := (List.mem_filter.mp hin).2
    rw [sendLoop_eq] at h2
    simp only [List.mem_filter, decide_eq_true_eq] at h2
    exact absurd ⟨h1, by simp [hC m.symbol]⟩ h2

theorem runMessages_all_ok (sendOk : ℕ → String → Bool)
    (msgs : List MarketData) (clients : List ℕ)
    (hok : ∀ c s, sendOk c s = true) :
    runMessages sendOk clients msgs =
      (clients, msgs.flatMap (fun m => clients.map (fun c => (c, m)))) := by
  induction msgs generalizing clients with
  | nil => rw [runMessages]; simp
  | cons m rest ih =>
    rw [runMessages]
    have hfilterAll : clients.filter (fun c => !(sendOk c m.symbol)) = [] := by
      apply List.filter_eq_nil_iff.mpr
      intro c _
      simp [hok c m.symbol]
    have hfilterOk : clients.filter (fun c => sendOk c m.symbol) = clients :=
      List.filter_eq_self.mpr (fun c _ => by simp [hok c m.symbol])
    rw [sendLoop_eq, hfilterAll, hfilterOk]
    have hnone : clients.filter (fun c => c ∉ ([] : List ℕ)) = clients :=
      List.filter_eq_self.mpr (fun c _ => by simp)
    rw [hnone, ih]
    simp

theorem subs_stepEvent (venue : Venue) (st : BridgeState) (e : BridgeEvent)
    (s : String) :
    s ∈ (stepEvent venue st e).subscribed_symbols ↔
      (match touchOf s e with
      | some b => b = true
      | none => s ∈ st.subscribed_symbols) := by
  cases e with
  | connect c => simp [stepEvent, touchOf]
  | disconnect c => simp [stepEvent, touchOf]
  | message c m =>
    cases m with
    | invalidJson => simp [stepEvent, handle_client_message, touchOf]
    | parsed d =>
      by_cases ha1 : d.action = some "subscribe"
      · cases hsym : d.symbol with
        | none => simp [stepEvent, handle_client_message, touchOf, ha1, hsym]
        | some t =>
          by_cases ht : t = ""
          · have hcond : ¬("" = s ∧ s ≠ "") := by
              rintro ⟨rfl, hne⟩; exact hne rfl
            simp [stepEvent, handle_client_message, touchOf, ha1, hsym, ht, hcond]
          · by_cases hts : t = s
            · subst hts
              cases hgi : get_symbol_info venue t <;>
                simp [stepEvent, handle_client_message, touchOf, ha1, hsym,
                  ht, hgi, mem_pyInsert]
            · cases hgi : get_symbol_info venue t <;>
                simp [stepEvent, handle_client_message, touchOf, ha1, hsym,
                  ht, hgi, mem_pyInsert, hts, Ne.symm hts]
      · by_cases ha2 : d.action = some "unsubscribe"
        · cases hsym : d.symbol with
          | none => simp [stepEvent, handle_client_message, touchOf, ha1, ha2, hsym]
          | some t =>
            by_cases hts : t = s
            · subst hts
              by_cases hmem : t ∈ st.subscribed_symbols <;>
                simp [stepEvent, handle_client_message, touchOf, ha1, ha2,
                  hsym, hmem, mem_pyRemove]
            · by_cases hmem : t ∈ st.subscribed_symbols <;>
                simp [stepEvent, handle_client_message, touchOf, ha1, ha2,
                  hsym, hmem, mem_pyRemove, hts, Ne.symm hts]
        · have hstate : (handle_client_message venue st (ClientMsg.parsed d)).1 = st := by
            rw [handle_client_message]
            simp only [ha1, ha2, if_false]
            split_ifs <;> rfl
          simp [stepEvent, touchOf, ha1, ha2, hstate]




/-- Shared lemma: the orders `execute_trade` submits are empty when the
price cannot be resolved (exception before `order_send`) and exactly
one request otherwise — single-shot submission. -/
theorem execute_trade_orders (venue : Venue) (d : MsgData) :
    (execute_trade venue d).2 =
      (match resolvePrice venue d with
      | none => []
      | some p => [buildRequest d p]) := by
  unfold execute_trade
  cases hp : resolvePrice venue d with
  | none => rfl
  | some p =>
    cases ho : venue.order_send (buildRequest d p) with
    | none => simp [ho]
    | some r =>
      simp only [ho]
      split <;> rfl

/-- C1 counterexample: after clients 0 and 1 both subscribe "EURUSD"
and client 0 alone unsubscribes it, the spec-side registry still lists
"EURUSD" as subscribed by the connected client 1, but the bridge's
actively polled set no longer contains it. -/
theorem c1_counterexample :
    "EURUSD" ∈ specActiveSymbols traceSharedUnsub ∧
    "EURUSD" ∉
      (runEvents demoVenue initState traceSharedUnsub).subscribed_symbols := by
  decide

/-- C1 amended: the actively polled set is one global set shared by all
clients; a symbol is in it after a trace iff the last subscribe (with a
truthy symbol) or unsubscribe command touching it — issued by any
client — was a subscribe, so one client's unsubscribe removes the
symbol even while other subscribed clients remain connected. -/
theorem c1_active_symbols_global (venue : Venue) (st : BridgeState)
    (evs : List BridgeEvent) (s : String) :
    s ∈ (runEvents venue st evs).subscribed_symbols ↔
      (match lastTouch s evs with
      | some b => b = true
      | none => s ∈ st.subscribed_symbols) := by
  induction evs generalizing st with
  | nil => rw [runEvents, lastTouch]
  | cons e rest ih =>
    rw [runEvents, lastTouch]
    rw [ih (stepEvent venue st e)]
    cases h : lastTouch s rest with
    | some b => rfl
    | none => exact subs_stepEvent venue st e s

/-- C2 counterexample: with client 0 subscribed only to "EURUSD" and
client 1 only to "GBPUSD" (per the spec-side registry), a broadcast
tick delivers the "GBPUSD" market-data message to client 0 as well. -/
theorem c2_counterexample :
    (0, formatMarketData (demoQuote "GBPUSD")) ∈
      (broadcastTick demoVenue stDisjoint (fun _ _ => true)).2 ∧
    specSubsOf traceDisjointSubs 0 = ["EURUSD"] := by
  decide

/-- C2 amended: the broadcast tick is an untargeted fan-out — every
market-data message of the tick is sent to every currently connected
client regardless of that client's subscriptions; when all sends
succeed, the deliveries are exactly all (client, message) pairs. -/
theorem c2_broadcast_to_all (venue : Venue) (st : BridgeState)
    (sendOk : ℕ → String → Bool) (hok : ∀ c s, sendOk c s = true) :
    broadcastTick venue st sendOk =
      (st, (tickMessages venue st).flatMap
        (fun m => st.connected_clients.map (fun c => (c, m)))) := by
  unfold broadcastTick tickMessages
  split
  · rw [runMessages_all_ok sendOk (tickPrices venue st) st.connected_clients hok]
  · simp

/-- Witness for the amended C2 at a concrete state with all sends
succeeding. -/
theorem c2_broadcast_to_all_witness :
    broadcastTick demoVenue stDisjoint (fun _ _ => true) =
      (stDisjoint, (tickMessages demoVenue stDisjoint).flatMap
        (fun m => stDisjoint.connected_clients.map (fun c => (c, m)))) :=
  c2_broadcast_to_all demoVenue stDisjoint (fun _ _ => true) (fun _ _ => rfl)

/-- C3 counterexample: client 0 subscribes "EURUSD" and disconnects;
afterwards no client is connected at all, yet "EURUSD" is still in the
actively polled set. -/
theorem c3_counterexample :
    (runEvents demoVenue initState traceSubThenLeave).connected_clients = [] ∧
    "EURUSD" ∈
      (runEvents demoVenue initState traceSubThenLeave).subscribed_symbols := by
  decide

/-- C3 amended: deregistering a client removes only its handle from the
connected set; the global subscription set is untouched, so the symbols
it subscribed stay in the actively polled set after it leaves. -/
theorem c3_disconnect_keeps_subscriptions (venue : Venue) (st : BridgeState)
    (c : ℕ) :
    (stepEvent venue st (BridgeEvent.disconnect c)).subscribed_symbols =
      st.subscribed_symbols ∧
    c ∉ (stepEvent venue st (BridgeEvent.disconnect c)).connected_clients := by
  refine ⟨rfl, ?_⟩
  simp [stepEvent, mem_pyRemove]

/-- C4: when the price resolves and the venue returns a readable order
result, a "done" retcode yields the success payload (success, ticket,
price, volume, symbol, type) and any other retcode yields the failure
payload (success=false, error, retcode); in both cases exactly one
order request is submitted — no retry, no second submission. -/
theorem c4_trade_result (venue : Venue) (d : MsgData) (p : ℚ)
    (r : OrderSendResult)
    (hp : resolvePrice venue d = some p)
    (hr : venue.order_send (buildRequest d p) = some r) :
    (r.retcode = TRADE_RETCODE_DONE →
      execute_trade venue d =
        ({ success := true, ticket := some r.order,
           volume := some (resolvedVolume d), price := some r.price,
           symbol := d.symbol, type := d.type,
           error := none, retcode := none },
         [buildRequest d p])) ∧
    (r.retcode ≠ TRADE_RETCODE_DONE →
      execute_trade venue d =
        ({ success := false, ticket := none, volume := none, price := none,
           symbol := none, type := none,
           error := some ("Trade failed: " ++ r.comment),
           retcode := some r.retcode },
         [buildRequest d p])) := by
  constructor <;> intro h <;> simp [execute_trade, hp, hr, h]

/-- Witness for C4 at a concrete accepted trade. -/
theorem c4_witness :
    execute_trade demoVenueAccept tdBuy =
      ({ success := true, ticket := some 7,
         volume := some (resolvedVolume tdBuy), price := some 1,
         symbol := some "EURUSD", type := some "buy",
         error := none, retcode := none },
       [buildRequest tdBuy 1]) :=
  (c4_trade_result demoVenueAccept tdBuy 1
      { retcode := 10009, order := 7, price := 1, comment := "filled" }
      (by decide) (by decide)).1 (by decide)

/-- C5 counterexample: a client-supplied volume of 0 is not replaced by
the 0.01 minimum lot — the submitted order carries volume 0. -/
theorem c5_counterexample :
    tdZeroVol.volume = some 0 ∧
    ((execute_trade demoVenueAccept tdZeroVol).2.map
      (fun r => r.volume)) = [0] := by
  decide

/-- C5 amended: the volume defaults to 0.01 only when the volume key is
absent; a supplied volume — zero or negative included — is passed
through to the venue unchanged in the submitted order. -/
theorem c5_volume_passthrough (venue : Venue) (d : MsgData) :
    ∀ req ∈ (execute_trade venue d).2,
      req.volume = d.volume.getD (1 / 100) := by
  intro req hreq
  rw [execute_trade_orders] at hreq
  cases hp : resolvePrice venue d with
  | none => rw [hp] at hreq; cases hreq
  | some p =>
    rw [hp] at hreq
    simp only [List.mem_singleton] at hreq
    subst hreq
    rfl

/-- Witness for the amended C5: the zero-volume order of
`c5_counterexample` carries exactly the supplied volume. -/
theorem c5_witness :
    (buildRequest tdZeroVol 1).volume = tdZeroVol.volume.getD (1 / 100) :=
  c5_volume_passthrough demoVenueAccept tdZeroVol
    (buildRequest tdZeroVol 1) (by decide)

/-- C6 counterexample: the original claim fails three ways at concrete
inputs — a trade command with its required symbol missing is answered
with a trade_result response (success=false with an error) instead of
being dropped; a frame with an unrecognized action is dropped without
any error log; a close command with its required ticket missing is
answered with a close_result response. -/
theorem c6_counterexample :
    tdNoSym.symbol = none ∧
    (handle_client_message demoVenueAccept initState
        (ClientMsg.parsed tdNoSym)).2.1 =
      [Response.trade_result tradeExceptionResult] ∧
    tradeExceptionResult.success = false ∧
    handle_client_message demoVenueAccept initState
        (ClientMsg.parsed unknownActionMsg) = (initState, [], false) ∧
    closeNoTicket.ticket = none ∧
    (handle_client_message demoVenueAccept initState
        (ClientMsg.parsed closeNoTicket)).2.1 ≠ [] := by
  decide

/-- C6 amended: a frame that fails JSON parsing is logged and dropped
with no response; a frame with an unknown action is dropped with no
response and without the drop being logged; a subscribe without a
usable symbol (absent or empty) is dropped with no response and no
error log, and an unsubscribe never produces a response or an error
log; a trade command is never dropped: a trade_result response is
always sent back, carrying success:false and an error when the
required symbol is missing and no price is supplied; a close command
is likewise never dropped: a close_result response is always sent
back, carrying success:false and the "Position not found" error when
its ticket matches no open position. -/
theorem c6_malformed_handling (venue : Venue) (st : BridgeState)
    (d : MsgData) :
    handle_client_message venue st ClientMsg.invalidJson = (st, [], true) ∧
    (d.action ≠ some "subscribe" → d.action ≠ some "unsubscribe" →
      d.action ≠ some "trade" → d.action ≠ some "close" →
      d.action ≠ some "account_info" →
      handle_client_message venue st (ClientMsg.parsed d) = (st, [], false)) ∧
    (d.action = some "subscribe" → (d.symbol = none ∨ d.symbol = some "") →
      handle_client_message venue st (ClientMsg.parsed d) = (st, [], false)) ∧
    (d.action = some "unsubscribe" →
      (handle_client_message venue st (ClientMsg.parsed d)).2 = ([], false)) ∧
    (d.action = some "trade" →
      (handle_client_message venue st (ClientMsg.parsed d)).2 =
        ([Response.trade_result (execute_trade venue d).1], false)) ∧
    (d.action = some "trade" → d.symbol = none →
      (d.price = none ∨ d.price = some 0) →
      (handle_client_message venue st (ClientMsg.parsed d)).2 =
        ([Response.trade_result tradeExceptionResult], false) ∧
      tradeExceptionResult.success = false ∧
      tradeExceptionResult.error ≠ none) ∧
    (d.action = some "close" →
      (handle_client_message venue st (ClientMsg.parsed d)).2 =
        ([Response.close_result (close_position venue d.ticket).1], false)) ∧
    (d.action = some "close" → venue.positions_get d.ticket = [] →
      (handle_client_message venue st (ClientMsg.parsed d)).2 =
        ([Response.close_result
          { success := false, ticket := none, close_price := none,
            error := some "Position not found", retcode := none }],
         false)) := by
  refine ⟨rfl, ?_, ?_, ?_, ?_, ?_, ?_, ?_⟩
  · intro h1 h2 h3 h4 h5
    simp [handle_client_message, h1, h2, h3, h4, h5]
  · intro ha hs
    rcases hs with hs | hs <;> simp [handle_client_message, ha, hs]
  · intro ha
    cases hs : d.symbol with
    | none => simp [handle_client_message, ha, hs]
    | some t =>
      by_cases hmem : t ∈ st.subscribed_symbols <;>
        simp [handle_client_message, ha, hs, hmem]
  · intro ha
    simp [handle_client_message, ha]
  · intro ha hsym hp
    have hrp : resolvePrice venue d = none := by
      rcases hp with hp | hp <;> simp [resolvePrice, hp, hsym]
    have hx : execute_trade venue d = (tradeExceptionResult, []) := by
      unfold execute_trade
      rw [hrp]
    refine ⟨?_, rfl, by simp [tradeExceptionResult]⟩
    simp [handle_client_message, ha, hx]
  · intro ha
    simp [handle_client_message, ha]
  · intro ha hpos
    have hcp : close_position venue d.ticket =
        ({ success := false, ticket := none, close_price := none,
           error := some "Position not found", retcode := none }, []) := by
      unfold close_position
      rw [hpos]
    simp [handle_client_message, ha, hcp]

/-- Witness for the amended C6: the symbol-less, price-less trade
command gets a trade_result response carrying the caught error. -/
theorem c6_witness :
    (handle_client_message demoVenueAccept initState
        (ClientMsg.parsed tdNoSym)).2 =
      ([Response.trade_result tradeExceptionResult], false) :=
  ((c6_malformed_handling demoVenueAccept initState
      tdNoSym).2.2.2.2.2.1 rfl rfl (Or.inl rfl)).1

/-- C7: a close command whose ticket matches no open position returns
the "Position not found" failure payload and submits no order at all. -/
theorem c7_close_not_found (venue : Venue) (t : Option ℕ)
    (h : venue.positions_get t = []) :
    close_position venue t =
      ({ success := false, ticket := none, close_price := none,
         error := some "Position not found", retcode := none }, []) := by
  unfold close_position
  rw [h]

/-- Witness for C7 at a concrete ticket with no open positions. -/
theorem c7_witness :
    close_position demoVenue (some 42) =
      ({ success := false, ticket := none, close_price := none,
         error := some "Position not found", retcode := none }, []) :=
  c7_close_not_found demoVenue (some 42) rfl

/-- C8: when every send to client C fails during a tick that produces
at least one message and sends to all other clients succeed, C is
removed from the connected-client set by the tick, and every other
connected client still receives every message of the tick. -/
theorem c8_send_failure (venue : Venue) (st : BridgeState)
    (sendOk : ℕ → String → Bool) (C : ℕ)
    (hC : ∀ s, sendOk C s = false)
    (hO : ∀ c, c ≠ C → ∀ s, sendOk c s = true)
    (hmsgs : tickMessages venue st ≠ []) :
    C ∉ (broadcastTick venue st sendOk).1.connected_clients ∧
    ∀ c ∈ st.connected_clients, c ≠ C →
      ∀ m ∈ tickMessages venue st,
        (c, m) ∈ (broadcastTick venue st sendOk).2 := by
  have hguard : st.subscribed_symbols ≠ [] ∧ st.connected_clients ≠ [] := by
    by_contra hg
    exact hmsgs (by unfold tickMessages; rw [if_neg hg])
  have hprices : tickPrices venue st ≠ [] := by
    unfold tickMessages at hmsgs
    rw [if_pos hguard] at hmsgs
    exact hmsgs
  unfold broadcastTick
  rw [if_pos hguard]
  constructor
  · exact runMessages_drops sendOk (tickPrices venue st)
      st.connected_clients hC hprices
  · intro c hc hne m hm
    unfold tickMessages at hm
    rw [if_pos hguard] at hm
    exact runMessages_delivers sendOk (tickPrices venue st)
      st.connected_clients hc (hO c hne) m hm

/-- Witness for C8: with clients 0 and 1 and all sends to client 1
failing, client 1 is deregistered and client 0 still receives the
"EURUSD" message. -/
theorem c8_witness :
    1 ∉ (broadcastTick demoVenue stTwoClients demoSendFail).1.connected_clients ∧
    (0, formatMarketData (demoQuote "EURUSD")) ∈
      (broadcastTick demoVenue stTwoClients demoSendFail).2 := by
  have h := c8_send_failure demoVenue stTwoClients demoSendFail 1
    (fun _ => rfl)
    (fun c hc _ => by simp [demoSendFail, bne_iff_ne, hc])
    (by decide)
  exact ⟨h.1, h.2 0 (by decide) (by decide)
    (formatMarketData (demoQuote "EURUSD")) (by decide)⟩

/-- C9: a quote-lookup failure for one symbol never suppresses another
symbol in the same tick — a subscribed symbol with a successful quote
contributes its market-data message, no message is produced for a
failed symbol, and (when its sends succeed) every connected client
still receives the successful symbol's message. -/
theorem c9_symbol_failure_isolated (venue : Venue) (st : BridgeState)
    (sendOk : ℕ → String → Bool) (Y : String) (qY : SymbolInfo)
    (hY : Y ∈ st.subscribed_symbols)
    (hq : venue.symbol_info Y = some qY)
    (hc : st.connected_clients ≠ []) :
    formatMarketData { qY with symbol := Y } ∈ tickMessages venue st ∧
    (∀ X, venue.symbol_info X = none →
      ∀ m ∈ tickMessages venue st, m.symbol ≠ X) ∧
    (∀ c ∈ st.connected_clients, (∀ s, sendOk c s = true) →
      (c, formatMarketData { qY with symbol := Y }) ∈
        (broadcastTick venue st sendOk).2) := by
  have hguard : st.subscribed_symbols ≠ [] ∧ st.connected_clients ≠ [] :=
    ⟨List.ne_nil_of_mem hY, hc⟩
  have hgi : get_symbol_info venue Y = some { qY with symbol := Y } := by
    unfold get_symbol_info
    rw [hq]
    rfl
  have hmem : formatMarketData { qY with symbol := Y } ∈ tickPrices venue st :=
    List.mem_map.mpr ⟨{ qY with symbol := Y },
      mem_get_current_prices_of hY hgi, rfl⟩
  refine ⟨?_, ?_, ?_⟩
  · unfold tickMessages
    rw [if_pos hguard]
    exact hmem
  · intro X hX m hm
    unfold tickMessages at hm
    rw [if_pos hguard] at hm
    obtain ⟨q, hq', rfl⟩ := List.mem_map.mp hm
    obtain ⟨s, _, hgs⟩ := of_mem_get_current_prices hq'
    intro hsym
    have : q.symbol = s := symbol_get_symbol_info hgs
    rw [show (formatMarketData q).symbol = q.symbol from rfl] at hsym
    rw [this] at hsym
    subst hsym
    unfold get_symbol_info at hgs
    rw [hX] at hgs
    cases hgs
  · intro c hcmem hcok
    unfold broadcastTick
    rw [if_pos hguard]
    exact runMessages_delivers sendOk (tickPrices venue st)
      st.connected_clients hcmem hcok _ hmem

/-- Witness for C9: under a venue that fails "GBPUSD" and quotes
"EURUSD", with both symbols subscribed, the "EURUSD" message is still
produced and delivered to the connected client 0. -/
theorem c9_witness :
    formatMarketData { demoQuote "EURUSD" with symbol := "EURUSD" } ∈
      tickMessages partialVenue stMixedSymbols ∧
    (0, formatMarketData { demoQuote "EURUSD" with symbol := "EURUSD" }) ∈
      (broadcastTick partialVenue stMixedSymbols (fun _ _ => true)).2 := by
  have h := c9_symbol_failure_isolated partialVenue stMixedSymbols
    (fun _ _ => true) "EURUSD" (demoQuote "EURUSD")
    (by decide) (by decide) (by decide)
  exact ⟨h.1, h.2.2 0 (by decide) (fun _ => rfl)⟩

/-- C10: a trade command whose type is anything but the exact string
"buy" — absent or misspelled included — is not rejected: with a falsy
price and an available quote it submits exactly one order, of sell
type, priced at the quote's bid. -/
theorem c10_nonbuy_is_sell (venue : Venue) (d : MsgData) (s : String)
    (q : SymbolInfo)
    (hty : d.type ≠ some "buy")
    (hs : d.symbol = some s)
    (hp : d.price = none ∨ d.price = some 0)
    (hq : venue.symbol_info s = some q) :
    (execute_trade venue d).2 = [buildRequest d q.bid] ∧
    (buildRequest d q.bid).type = ORDER_TYPE_SELL ∧
    (buildRequest d q.bid).price = some q.bid := by
  have hrp : resolvePrice venue d = some q.bid := by
    rcases hp with hp | hp <;> simp [resolvePrice, hp, hs, hq, hty]
  refine ⟨?_, ?_, rfl⟩
  · rw [execute_trade_orders, hrp]
  · simp [buildRequest, resolvedType, hty]

/-- Witness for C10: the misspelled side "BUY" goes out as a sell order
at the bid. -/
theorem c10_witness :
    (execute_trade demoVenueAccept tdMisspelled).2 =
      [buildRequest tdMisspelled (demoQuote "EURUSD").bid] ∧
    (buildRequest tdMisspelled (demoQuote "EURUSD").bid).type =
      ORDER_TYPE_SELL ∧
    (buildRequest tdMisspelled (demoQuote "EURUSD").bid).price =
      some (demoQuote "EURUSD").bid :=
  c10_nonbuy_is_sell demoVenueAccept tdMisspelled "EURUSD"
    (demoQuote "EURUSD") (by decide) rfl (Or.inl rfl) (by decide)
